import Mathlib

/-!
# Verification of the solar-system AR viewer

Shallow embedding of the repository's JavaScript source (the complete
variant `src/unnamed/part_000`; the two variants embedded in `src/main.js`
share the same structure and are noted where they differ).  The program
shows a 3D solar system either in a desktop orbit-camera view or in a
WebXR augmented-reality view with hit-test driven placement.

The embedding models:
 * the planet configuration table and scene construction
   (`createSolarSystem`),
 * the per-frame AR loop `renderAR` (hit-test source request, hit-test,
   reticle update, select-listener arming, orbit animation),
 * the tap handler `onSelect`,
 * the session `end` listener,
 * the mode controller (`init3D` / `initAR` resource accounting and the
   start-button click handler).

States carry exact rationals where the source uses JS numbers whose
dynamics are pure additions of decimal constants, and reals where the
value of `Math.PI` matters (the random initial orbital phase).
-/

namespace SolarAR

/-- A 3-component vector, as used for `Object3D.position` / `.scale`. -/
structure Vec3 where
  x : ℚ
  y : ℚ
  z : ℚ
deriving DecidableEq, Repr

/-- A rigid transform, abstracting the 4x4 matrices of the source
(`XRPose.transform.matrix`, `reticle.matrix`): the translation component
(read back by `setFromMatrixPosition`) together with the orientation
component, which the placement logic never inspects and which we keep as
an opaque rational summary. -/
structure Mat4 where
  position : Vec3
  orientation : ℚ
deriving DecidableEq, Repr

/-- One entry of the `planetConfig` table of `src/unnamed/part_000`
(same table in the second variant of `src/main.js`). -/
structure PlanetCfg where
  name : String
  radius : ℚ
  distance : ℚ
  texture : String
  speed : ℚ
deriving DecidableEq, Repr

/-- The `planetConfig` table, transcribed from `src/unnamed/part_000`
lines 18-29. -/
def planetConfig : List PlanetCfg :=
  [ { name := "Sun", radius := 0.5, distance := 0, texture := "sun.jpg", speed := 0 },
    { name := "Mercury", radius := 0.05, distance := 1.0, texture := "mercury.jpg", speed := 0.02 },
    { name := "Venus", radius := 0.08, distance := 1.5, texture := "venus.jpg", speed := 0.015 },
    { name := "Earth", radius := 0.09, distance := 2.0, texture := "earth.jpg", speed := 0.01 },
    { name := "Mars", radius := 0.06, distance := 2.5, texture := "mars.jpg", speed := 0.008 },
    { name := "Jupiter", radius := 0.20, distance := 3.5, texture := "jupiter.jpg", speed := 0.005 },
    { name := "Saturn", radius := 0.18, distance := 4.5, texture := "saturn.jpg", speed := 0.004 },
    { name := "Uranus", radius := 0.12, distance := 5.5, texture := "uranus.jpg", speed := 0.003 },
    { name := "Neptune", radius := 0.11, distance := 6.5, texture := "neptune.jpg", speed := 0.002 } ]

/-- One tracked pivot of the `planets` array: the orbital pivot group and
its child planet mesh.  `pivotAngle` is `pivot.rotation.y` and
`meshAngle` is `mesh.rotation.y`; both are 0 when the objects are
constructed (`THREE.Group` / `THREE.Mesh` default rotation).  The random
`userData.angle` is stored on the mesh at construction but never read by
any animation step, so it does not appear in the dynamic state; its value
is analysed separately over the reals below. -/
structure Pivot where
  speed : ℚ
  pivotAngle : ℚ
  meshAngle : ℚ
deriving DecidableEq, Repr

/-- The `planets` array produced by `createSolarSystem`
(`src/unnamed/part_000` lines 47-90): one pivot per non-Sun config
entry, rotations starting at 0. -/
def createPlanets : List Pivot :=
  (planetConfig.filter (fun c => c.name ≠ "Sun")).map
    (fun c => { speed := c.speed, pivotAngle := 0, meshAngle := 0 })

/-- The per-frame orbit update shared by `animate` (lines 131-140) and
`renderAR` (lines 221-226): for every pivot,
`pivot.rotation.y += speed` and `mesh.rotation.y += speed * 2`. -/
def animatePlanets (ps : List Pivot) : List Pivot :=
  ps.map (fun p =>
    { p with pivotAngle := p.pivotAngle + p.speed
             meshAngle := p.meshAngle + p.speed * 2 })

/-- The mutable module state of the AR mode after `initAR` has run:
reticle, solar-system group, hit-test bookkeeping, and the select
listener.  `selectArmed` records whether `onSelect` is currently
registered on the session as a `{ once: true }` listener (DOM
`addEventListener` with the same callback is a no-op while it is already
registered).  `requestsIssued` counts the hit-test-source requests that
have been issued, to state the at-most-once property. -/
structure ARState where
  reticleVisible : Bool
  reticleMatrix : Mat4
  groupPosition : Vec3
  groupScale : Vec3
  groupRotation : Vec3
  groupAttached : Bool
  selectArmed : Bool
  planets : List Pivot
  hitTestSource : Option Unit
  hitTestSourceRequested : Bool
  requestsIssued : Nat
deriving DecidableEq, Repr

/-- The state right after `initAR` (`src/unnamed/part_000` lines
146-185): reticle constructed invisible with an untouched matrix, the
solar-system group freshly built at the origin with unit scale and not
yet added to the scene (only `onSelect` adds it in AR mode), no listener
armed, no hit-test source and no request issued. -/
def arInit : ARState :=
  { reticleVisible := false
    reticleMatrix := { position := { x := 0, y := 0, z := 0 }, orientation := 0 }
    groupPosition := { x := 0, y := 0, z := 0 }
    groupScale := { x := 1, y := 1, z := 1 }
    groupRotation := { x := 0, y := 0, z := 0 }
    groupAttached := false
    selectArmed := false
    planets := createPlanets
    hitTestSource := none
    hitTestSourceRequested := false
    requestsIssued := 0 }

/-- The tap handler `onSelect` (`src/unnamed/part_000` lines 232-240):
if the reticle is visible, copy the translation of the reticle matrix
into the group position (`setFromMatrixPosition`), set the scale to
`(0.3, 0.3, 0.3)`, add the group to the scene (`scene.add`, idempotent),
and hide the reticle; otherwise do nothing.  The second variant of
`src/main.js` (lines 416-424) additionally calls `removeEventListener`,
which is redundant after a `{ once: true }` delivery; the first variant
(lines 162-171) omits the `scale.set` call. -/
def onSelect (s : ARState) : ARState :=
  if s.reticleVisible then
    { s with groupPosition := s.reticleMatrix.position
             groupScale := { x := 0.3, y := 0.3, z := 0.3 }
             groupAttached := true
             reticleVisible := false }
  else s

/-- The events the AR session delivers to the module state: an
animation-loop tick carrying an `XRFrame` whose hit test yields the given
ordered list of result poses, the asynchronous resolution of the
hit-test-source request, a user tap (`select`), and the session `end`
event. -/
inductive XREvent where
  | frame (hits : List Mat4)
  | resolve
  | select
  | sessionEnd
deriving DecidableEq, Repr

/-- One tick of `renderAR` (`src/unnamed/part_000` lines 188-229) with a
live frame, within an active session.  First the request block: if no
hit-test-source request has been issued, issue one (its resolution
arrives later as a `resolve` event) and set the flag synchronously.
Then the hit-test block, run only once the source is available: with at
least one result, show the reticle, set its matrix to the first result's
pose and register `onSelect` as a once-only `select` listener; with no
results, hide the reticle.  Finally advance the orbit animation. -/
def renderAR (hits : List Mat4) (s : ARState) : ARState :=
  let s₁ :=
    if s.hitTestSourceRequested then s
    else { s with hitTestSourceRequested := true
                  requestsIssued := s.requestsIssued + 1 }
  let s₂ :=
    match s₁.hitTestSource with
    | none => s₁
    | some _ =>
        match hits with
        | [] => { s₁ with reticleVisible := false }
        | m :: _ =>
            { s₁ with reticleVisible := true
                      reticleMatrix := m
                      selectArmed := true }
  { s₂ with planets := animatePlanets s₂.planets }

/-- Delivery of a `select` event: if `onSelect` is registered it is
removed first (`{ once: true }`) and then runs; otherwise nothing
happens. -/
def selectStep (s : ARState) : ARState :=
  if s.selectArmed then onSelect { s with selectArmed := false } else s

/-- The session `end` listener (`src/unnamed/part_000` line 199):
`hitTestSourceRequested = false; hitTestSource = null`. -/
def endStep (s : ARState) : ARState :=
  { s with hitTestSourceRequested := false, hitTestSource := none }

/-- Resolution of the hit-test-source request chain (lines 194-198):
`hitTestSource = source`. -/
def resolveStep (s : ARState) : ARState :=
  { s with hitTestSource := some () }

/-- Dispatch one event to the AR module state. -/
def step : XREvent → ARState → ARState
  | .frame hits, s => renderAR hits s
  | .resolve, s => resolveStep s
  | .select, s => selectStep s
  | .sessionEnd, s => endStep s

/-- Run a sequence of AR events in order. -/
def runEvents (evs : List XREvent) (s : ARState) : ARState :=
  evs.foldl (fun s e => step e s) s

/-! ## Mode controller: resource accounting for `init3D` / `initAR` -/

/-- Resource accounting for the mode controller: how many renderer
canvases are attached to the `container` element and how many renderers
have a non-null animation loop registered. -/
structure ModeState where
  surfaces : Nat
  loops : Nat
deriving DecidableEq, Repr

/-- Before any mode is initialized: nothing attached, no loop. -/
def modeInit : ModeState := { surfaces := 0, loops := 0 }

/-- `init3D` (`src/unnamed/part_000` lines 94-124): builds a fresh
renderer, appends its canvas to the container and registers the
`animate` loop.  It performs no teardown of any previously created
renderer. -/
def init3D (m : ModeState) : ModeState :=
  { surfaces := m.surfaces + 1, loops := m.loops + 1 }

/-- `initAR` (`src/unnamed/part_000` lines 146-185): disposes the
controls, removes the current renderer's canvas from the container,
clears its animation loop (`setAnimationLoop(null)`), then builds a
fresh renderer, appends its canvas and registers the `renderAR` loop. -/
def initAR (m : ModeState) : ModeState :=
  { surfaces := (m.surfaces - 1) + 1, loops := (m.loops - 1) + 1 }

/-! ## Start-button click handler -/

/-- Which path the start-button click handler takes. -/
inductive StartPath where
  | arInitPath
  | fallback3D
deriving DecidableEq, Repr

/-- JS truthiness of the value `navigator.xr.isSessionSupported('immersive-ar')`:
the call returns a `Promise`, and a `Promise` is an object, which is
truthy regardless of the boolean it later resolves to.  The argument
records the eventual answer of the capability query; the result is the
truthiness the `if` condition actually observes. -/
def promiseIsTruthy (_resolvesTo : Bool) : Bool := true

/-- The start-button click handler (`src/unnamed/part_000` lines
243-255): `if (navigator.xr && navigator.xr.isSessionSupported('immersive-ar'))`
then hide the overlay and call `initAR`, else alert the user and call
`init3D`.  `xrPresent` is the truthiness of `navigator.xr`;
`arSupported` is the boolean the capability promise would resolve to. -/
def startClick (xrPresent : Bool) (arSupported : Bool) : StartPath :=
  if xrPresent && promiseIsTruthy arSupported then .arInitPath else .fallback3D

/-! ## Real-valued model of a planet's construction and animation

The random initial orbital phase is `Math.random() * Math.PI * 2`, a
real number; this model keeps a single planet's mesh/pivot angles over
`ℝ` so the phase can be compared against the animated rotation. -/

/-- The initial `userData.angle` of a mesh
(`src/unnamed/part_000` line 77): `Math.random() * Math.PI * 2`, where
`r` is the value drawn from `Math.random()` (in `[0, 1)`). -/
noncomputable def initialUserAngle (r : ℝ) : ℝ := r * Real.pi * 2

/-- A single planet's orbital pivot and mesh over the reals:
`userAngle` is the stored `userData.angle`; `pivotAngle` and
`meshAngle` are `pivot.rotation.y` and `mesh.rotation.y`, both 0 at
construction (default rotation of a fresh `Group` / `Mesh`; nothing in
`createSolarSystem` copies `userData.angle` into either). -/
structure PivotR where
  speed : ℝ
  userAngle : ℝ
  pivotAngle : ℝ
  meshAngle : ℝ

/-- Construction of one planet's pivot by `createSolarSystem`
(`src/unnamed/part_000` lines 72-86) given its configured speed and the
`Math.random()` draw `r`. -/
noncomputable def mkPivot (speed r : ℝ) : PivotR :=
  { speed := speed
    userAngle := initialUserAngle r
    pivotAngle := 0
    meshAngle := 0 }

/-- One `animate` / `renderAR` orbit update for a single planet
(`src/unnamed/part_000` lines 136-139): `pivot.rotation.y += speed`,
`mesh.rotation.y += speed * 2`. -/
def animatePivot (p : PivotR) : PivotR :=
  { p with pivotAngle := p.pivotAngle + p.speed
           meshAngle := p.meshAngle + p.speed * 2 }

/-- `n` frame advances of a single planet. -/
def animateIter (n : ℕ) (p : PivotR) : PivotR := animatePivot^[n] p

/-- Equality of angles modulo `2π`. -/
def angleEqMod (a b : ℝ) : Prop := ∃ k : ℤ, a - b = k * (2 * Real.pi)

/-! ## Concrete data used by evaluations and witnesses -/

/-- A concrete hit-result pose. -/
def poseA : Mat4 := { position := { x := 1, y := 2, z := 3 }, orientation := 5 }

/-- A second concrete hit-result pose, at a different surface point. -/
def poseB : Mat4 := { position := { x := 4, y := 5, z := 6 }, orientation := 7 }

/-- An AR state whose hit-test source has resolved. -/
def arTracking : ARState := { arInit with hitTestSource := some () }

/-- An AR state in which the reticle is currently visible. -/
def arReticleOn : ARState := { arInit with reticleVisible := true }

/-- A session trace: first frame (issues the hit-test-source request),
promise resolution, a frame whose hit test returns `poseA`, and a tap. -/
def placeTrace : List XREvent := [.frame [], .resolve, .frame [poseA], .select]

/-- `placeTrace` followed by another frame with a hit at `poseB` and a
second tap. -/
def retapTrace : List XREvent := placeTrace ++ [.frame [poseB], .select]

/-! ## Helper lemmas -/

/-- A frame step sets the request flag unconditionally: it is already
set, or the step issues the request and sets it synchronously. -/
lemma renderAR_flag (hits : List Mat4) (s : ARState) :
    (renderAR hits s).hitTestSourceRequested = true := by
  cases hsrc : s.hitTestSource <;> by_cases hreq : s.hitTestSourceRequested <;>
    cases hits <;> simp [renderAR, hsrc, hreq]

/-- A frame step increments the issued-request counter exactly when the
flag was not yet set. -/
lemma renderAR_issued (hits : List Mat4) (s : ARState) :
    (renderAR hits s).requestsIssued =
      if s.hitTestSourceRequested then s.requestsIssued
      else s.requestsIssued + 1 := by
  cases hsrc : s.hitTestSource <;> by_cases hreq : s.hitTestSourceRequested <;>
    cases hits <;> simp [renderAR, hsrc, hreq]

/-- A frame step does not change the hit-test source reference. -/
lemma renderAR_source (hits : List Mat4) (s : ARState) :
    (renderAR hits s).hitTestSource = s.hitTestSource := by
  cases hsrc : s.hitTestSource <;> by_cases hreq : s.hitTestSourceRequested <;>
    cases hits <;> simp [renderAR, hsrc, hreq]

/-- Delivering a select event never touches the request bookkeeping. -/
lemma selectStep_requests (s : ARState) :
    (selectStep s).requestsIssued = s.requestsIssued ∧
    (selectStep s).hitTestSourceRequested = s.hitTestSourceRequested := by
  by_cases harm : s.selectArmed <;> by_cases hvis : s.reticleVisible <;>
    simp [selectStep, onSelect, harm, hvis]

/-- Request-counter invariant: along any trace that contains no session
`end` event, a state in which the counter and the pending-flag budget are
within one stays within one. -/
lemma runEvents_issued_le (evs : List XREvent) :
    ∀ s : ARState, (∀ e ∈ evs, e ≠ XREvent.sessionEnd) →
      s.requestsIssued + (if s.hitTestSourceRequested then 0 else 1) ≤ 1 →
      (runEvents evs s).requestsIssued +
        (if (runEvents evs s).hitTestSourceRequested then 0 else 1) ≤ 1 := by
  induction evs with
  | nil =>
      intro s _ hinv
      simpa [runEvents] using hinv
  | cons e rest ih =>
      intro s hnoend hinv
      have hrun : runEvents (e :: rest) s = runEvents rest (step e s) := by
        simp [runEvents]
      rw [hrun]
      refine ih (step e s) (fun e' h' => hnoend e' (List.mem_cons_of_mem _ h')) ?_
      cases e with
      | frame hits =>
          have hf := renderAR_flag hits s
          have hi := renderAR_issued hits s
          by_cases hreq : s.hitTestSourceRequested <;>
            simp [step, hf, hi, hreq] <;> simp [hreq] at hinv <;> omega
      | resolve =>
          simpa [step, resolveStep] using hinv
      | select =>
          have hs := selectStep_requests s
          rw [step, hs.1, hs.2]
          exact hinv
      | sessionEnd =>
          exact absurd rfl (hnoend _ (List.mem_cons_self _ _))

/-- Orbit animation characterization: `n` frame advances add `n * speed`
to the pivot angle and `n * (speed * 2)` to the mesh angle, and leave the
configured speed alone.  The stored `userData.angle` never enters. -/
lemma animateIter_angles (n : ℕ) (p : PivotR) :
    (animateIter n p).speed = p.speed ∧
    (animateIter n p).pivotAngle = p.pivotAngle + n * p.speed ∧
    (animateIter n p).meshAngle = p.meshAngle + n * (p.speed * 2) := by
  induction n with
  | zero => simp [animateIter]
  | succ k ih =>
      obtain ⟨hs, hp, hm⟩ := ih
      rw [animateIter, Function.iterate_succ_apply'] at *
      refine ⟨by simp [animatePivot, hs], ?_, ?_⟩ <;>
        simp [animatePivot, hs, hp, hm] <;> ring

/-- With the source available and no hit results, a frame step hides the
reticle and leaves its matrix alone. -/
lemma renderAR_reticle_empty (s : ARState) (hsrc : s.hitTestSource = some ()) :
    (renderAR [] s).reticleVisible = false ∧
    (renderAR [] s).reticleMatrix = s.reticleMatrix := by
  by_cases hreq : s.hitTestSourceRequested <;> simp [renderAR, hsrc, hreq]

/-- With the source available and at least one hit result, a frame step
shows the reticle at the first result's transform. -/
lemma renderAR_reticle_cons (s : ARState) (m : Mat4) (ms : List Mat4)
    (hsrc : s.hitTestSource = some ()) :
    (renderAR (m :: ms) s).reticleVisible = true ∧
    (renderAR (m :: ms) s).reticleMatrix = m := by
  by_cases hreq : s.hitTestSourceRequested <;> simp [renderAR, hsrc, hreq]

/-! ## The claims -/

/-- Claim C1, settled as a code bug.  The claim says a select event
while the reticle is visible sets the group's position to the reticle
pose, scales it by 0.3, attaches it, hides the reticle, and that every
subsequent select in the same session produces no further change
(single-fire).  The code re-registers the once-only select listener on
every frame that has hit results, so after such a frame a second tap
re-places the group: `placeTrace` ends with the group at
`poseA.position`, scaled 0.3, attached, reticle hidden — but extending
it with one more hit frame and a second select (`retapTrace`) moves the
group to `poseB.position`. -/
theorem c1_placement_refires_after_hit_frame :
    (runEvents placeTrace arInit).groupPosition = poseA.position ∧
    (runEvents placeTrace arInit).groupScale = { x := 0.3, y := 0.3, z := 0.3 } ∧
    (runEvents placeTrace arInit).groupAttached = true ∧
    (runEvents placeTrace arInit).reticleVisible = false ∧
    (runEvents retapTrace arInit).groupPosition = poseB.position ∧
    poseB.position ≠ poseA.position :=
  ⟨rfl, rfl, rfl, rfl, rfl, by decide⟩

/-- Claim C2: for every frame processed while the hit-test source is
available, an empty hit-result list makes the reticle invisible; a
nonempty list makes it visible with its pose matrix equal to the first
result's transform; and re-running the frame step on the same frame
yields the same visibility and pose. -/
theorem c2_reticle_follows_first_hit (s : ARState) (hits : List Mat4)
    (hsrc : s.hitTestSource = some ()) :
    (hits = [] → (renderAR hits s).reticleVisible = false) ∧
    (∀ m ms, hits = m :: ms →
      (renderAR hits s).reticleVisible = true ∧
      (renderAR hits s).reticleMatrix = m) ∧
    (renderAR hits (renderAR hits s)).reticleVisible
      = (renderAR hits s).reticleVisible ∧
    (renderAR hits (renderAR hits s)).reticleMatrix
      = (renderAR hits s).reticleMatrix := by
  have hsrc' : (renderAR hits s).hitTestSource = some () := by
    rw [renderAR_source]; exact hsrc
  cases hits with
  | nil =>
      obtain ⟨hv, hm⟩ := renderAR_reticle_empty s hsrc
      obtain ⟨hv', hm'⟩ := renderAR_reticle_empty (renderAR [] s) hsrc'
      refine ⟨fun _ => hv, ?_, ?_, ?_⟩
      · intro m ms h
        cases h
      · rw [hv, hv']
      · rw [hm']
  | cons m ms =>
      obtain ⟨hv, hm⟩ := renderAR_reticle_cons s m ms hsrc
      obtain ⟨hv', hm'⟩ := renderAR_reticle_cons (renderAR (m :: ms) s) m ms hsrc'
      refine ⟨?_, ?_, ?_, ?_⟩
      · intro h
        cases h
      · intro m' ms' h
        injection h with h1 h2
        cases h1
        cases h2
        exact ⟨hv, hm⟩
      · rw [hv, hv']
      · rw [hm, hm']

/-- Witness for C2: a state whose hit-test source has resolved, and a
frame with a single hit result at `poseA`. -/
theorem c2_witness :
    arTracking.hitTestSource = some () ∧
    ((([poseA] : List Mat4) = [] →
        (renderAR [poseA] arTracking).reticleVisible = false) ∧
     (∀ m ms, ([poseA] : List Mat4) = m :: ms →
        (renderAR [poseA] arTracking).reticleVisible = true ∧
        (renderAR [poseA] arTracking).reticleMatrix = m) ∧
     (renderAR [poseA] (renderAR [poseA] arTracking)).reticleVisible
       = (renderAR [poseA] arTracking).reticleVisible ∧
     (renderAR [poseA] (renderAR [poseA] arTracking)).reticleMatrix
       = (renderAR [poseA] arTracking).reticleMatrix) :=
  ⟨rfl, c2_reticle_follows_first_hit arTracking [poseA] rfl⟩

/-- Claim C3, settled as a code bug.  The claim says that after `N`
frame advances a body's orbital angle equals its initial random phase
plus `N` times its speed (mod `2π`), the axial angle twice the
increment.  The code stores the random phase in `userData.angle` but
never applies it: the pivot and mesh rotations start at 0, so after `N`
frames the orbital angle is exactly `N * speed` and the axial angle
`N * (speed * 2)`, with no phase term.  For the Mercury speed `0.02`,
the random draw `1/4` (phase `π/2`) and `N = 1`, the actual angle
`0.02` is not congruent to `phase + 1 * 0.02` modulo `2π`. -/
theorem c3_random_phase_never_applied :
    (∀ (n : ℕ) (sp r : ℝ),
      (animateIter n (mkPivot sp r)).pivotAngle = n * sp ∧
      (animateIter n (mkPivot sp r)).meshAngle = n * (sp * 2)) ∧
    (animateIter 1 (mkPivot 0.02 (1/4))).pivotAngle = 0.02 ∧
    ¬ angleEqMod (animateIter 1 (mkPivot 0.02 (1/4))).pivotAngle
        ((mkPivot 0.02 (1/4)).userAngle + 1 * 0.02) := by
  have hgen : ∀ (n : ℕ) (sp r : ℝ),
      (animateIter n (mkPivot sp r)).pivotAngle = n * sp ∧
      (animateIter n (mkPivot sp r)).meshAngle = n * (sp * 2) := by
    intro n sp r
    obtain ⟨-, hp, hm⟩ := animateIter_angles n (mkPivot sp r)
    rw [hp, hm]
    simp [mkPivot]
  have hval : (animateIter 1 (mkPivot 0.02 (1/4))).pivotAngle = 0.02 := by
    rw [(hgen 1 0.02 (1/4)).1]; norm_num
  refine ⟨hgen, hval, ?_⟩
  rintro ⟨k, hk⟩
  rw [hval] at hk
  have hua : (mkPivot 0.02 (1/4)).userAngle = 1/4 * Real.pi * 2 := rfl
  rw [hua] at hk
  have key : Real.pi * (4 * (k : ℝ) + 1) = 0 := by ring_nf at hk ⊢; linarith
  have hk0 : 4 * (k : ℝ) + 1 = 0 :=
    (mul_eq_zero.mp key).resolve_left Real.pi_ne_zero
  have hkz : ((4 * k + 1 : ℤ) : ℝ) = 0 := by push_cast; linarith
  have : (4 * k + 1 : ℤ) = 0 := by exact_mod_cast hkz
  omega

/-- Claim C4, settled as a code bug.  The claim says the AR path is
entered only when the capability query answers that AR is supported,
with a fallback otherwise.  In the code the condition
`navigator.xr && navigator.xr.isSessionSupported('immersive-ar')`
tests the truthiness of a `Promise` object, which is always truthy, so
with the XR API present the AR path is taken even when the query would
answer `false`; only the absent-API part of the claim holds. -/
theorem c4_capability_answer_ignored :
    startClick false true = .fallback3D ∧
    startClick false false = .fallback3D ∧
    startClick true false = .arInitPath := by decide

/-- Claim C5: within a single AR session (a trace without the session
`end` event) the hit-test-source request is issued at most once, no
matter how many frames elapse before it resolves, and the request flag
is set synchronously in the same frame step that issues the request. -/
theorem c5_request_issued_at_most_once (evs : List XREvent)
    (hnoend : ∀ e ∈ evs, e ≠ XREvent.sessionEnd) :
    (runEvents evs arInit).requestsIssued ≤ 1 ∧
    (∀ (hits : List Mat4) (s : ARState),
      (renderAR hits s).hitTestSourceRequested = true) := by
  refine ⟨?_, renderAR_flag⟩
  have h := runEvents_issued_le evs arInit hnoend (by simp [arInit])
  by_cases hflag : (runEvents evs arInit).hitTestSourceRequested <;>
    simp [hflag] at h <;> omega

/-- Witness for C5: a four-event session trace containing two frames,
the promise resolution and one more frame, and no `end` event. -/
theorem c5_witness :
    (∀ e ∈ ([.frame [], .resolve, .frame [poseA], .frame []] : List XREvent),
      e ≠ XREvent.sessionEnd) ∧
    ((runEvents [.frame [], .resolve, .frame [poseA], .frame []] arInit).requestsIssued ≤ 1 ∧
     (∀ (hits : List Mat4) (s : ARState),
       (renderAR hits s).hitTestSourceRequested = true)) :=
  ⟨by decide, c5_request_issued_at_most_once _ (by decide)⟩

/-- Claim C6: the session `end` listener clears the hit-test source and
resets the request flag, so the first frame processed by a subsequently
started session observes the not-yet-requested state and issues a fresh
hit-test-source request. -/
theorem c6_session_end_resets (s : ARState) (hits : List Mat4) :
    (endStep s).hitTestSourceRequested = false ∧
    (endStep s).hitTestSource = none ∧
    (renderAR hits (endStep s)).requestsIssued = s.requestsIssued + 1 ∧
    (renderAR hits (endStep s)).hitTestSourceRequested = true := by
  refine ⟨rfl, rfl, ?_, renderAR_flag _ _⟩
  rw [renderAR_issued]
  simp [endStep]

/-- Claim C7, settled as a code bug.  The claim says every mode switch
leaves exactly one rendering surface attached and one per-frame callback
registered.  The desktop-to-AR switch (`initAR`) does tear the previous
renderer down, but the fallback path calls `init3D` again on top of the
`init3D` already run at page load, with no teardown: two canvases stay
attached and two animation loops stay registered. -/
theorem c7_fallback_leaks_second_surface :
    initAR (init3D modeInit) = { surfaces := 1, loops := 1 } ∧
    init3D (init3D modeInit) = { surfaces := 2, loops := 2 } := by decide

/-- Claim C8: a select event delivered while the reticle is invisible
leaves the solar-system group's position, scale and scene attachment
exactly as they were. -/
theorem c8_select_invisible_is_noop (s : ARState)
    (hinvis : s.reticleVisible = false) :
    (selectStep s).groupPosition = s.groupPosition ∧
    (selectStep s).groupScale = s.groupScale ∧
    (selectStep s).groupAttached = s.groupAttached := by
  by_cases harm : s.selectArmed <;> simp [selectStep, onSelect, harm, hinvis]

/-- Witness for C8 at the initial AR state, whose reticle is
invisible. -/
theorem c8_witness :
    arInit.reticleVisible = false ∧
    ((selectStep arInit).groupPosition = arInit.groupPosition ∧
     (selectStep arInit).groupScale = arInit.groupScale ∧
     (selectStep arInit).groupAttached = arInit.groupAttached) :=
  ⟨rfl, c8_select_invisible_is_noop arInit rfl⟩

/-- Claim C9: the initial orbital phase assigned at construction,
`Math.random() * Math.PI * 2`, lies in `[0, 2π)` for every value of the
random source in `[0, 1)` and every configured speed. -/
theorem c9_initial_phase_in_range (speed r : ℝ) (h0 : 0 ≤ r) (h1 : r < 1) :
    0 ≤ (mkPivot speed r).userAngle ∧
    (mkPivot speed r).userAngle < 2 * Real.pi := by
  have hπ := Real.pi_pos
  have hua : (mkPivot speed r).userAngle = r * Real.pi * 2 := rfl
  rw [hua]
  constructor
  · nlinarith [mul_nonneg h0 hπ.le]
  · nlinarith [mul_pos (by linarith : (0:ℝ) < 1 - r) hπ]

/-- Witness for C9 at the random draw `1/2`. -/
theorem c9_witness :
    (0 ≤ (1/2 : ℝ)) ∧ ((1/2 : ℝ) < 1) ∧
    (0 ≤ (mkPivot 0.02 (1/2)).userAngle ∧
     (mkPivot 0.02 (1/2)).userAngle < 2 * Real.pi) :=
  ⟨by norm_num, by norm_num,
   c9_initial_phase_in_range 0.02 (1/2) (by norm_num) (by norm_num)⟩

/-- Claim C10: when the placement handler runs with the reticle visible
it changes only the group's position (to the reticle pose position), its
scale (to 0.3), its scene attachment and the reticle's visibility; the
group's rotation, every pivot's orbital and axial angles, and the
hit-test bookkeeping are untouched. -/
theorem c10_select_touches_only_placement (s : ARState)
    (hvis : s.reticleVisible = true) :
    (onSelect s).groupRotation = s.groupRotation ∧
    (onSelect s).planets = s.planets ∧
    (onSelect s).hitTestSource = s.hitTestSource ∧
    (onSelect s).hitTestSourceRequested = s.hitTestSourceRequested ∧
    (onSelect s).groupPosition = s.reticleMatrix.position ∧
    (onSelect s).groupScale = { x := 0.3, y := 0.3, z := 0.3 } ∧
    (onSelect s).groupAttached = true ∧
    (onSelect s).reticleVisible = false := by
  simp [onSelect, hvis]

/-- Witness for C10 at a state whose reticle is visible. -/
theorem c10_witness :
    arReticleOn.reticleVisible = true ∧
    ((onSelect arReticleOn).groupRotation = arReticleOn.groupRotation ∧
     (onSelect arReticleOn).planets = arReticleOn.planets ∧
     (onSelect arReticleOn).hitTestSource = arReticleOn.hitTestSource ∧
     (onSelect arReticleOn).hitTestSourceRequested = arReticleOn.hitTestSourceRequested ∧
     (onSelect arReticleOn).groupPosition = arReticleOn.reticleMatrix.position ∧
     (onSelect arReticleOn).groupScale = { x := 0.3, y := 0.3, z := 0.3 } ∧
     (onSelect arReticleOn).groupAttached = true ∧
     (onSelect arReticleOn).reticleVisible = false) :=
  ⟨rfl, c10_select_touches_only_placement arReticleOn rfl⟩

end SolarAR
